import Mathlib

/-!
Shallow embedding of `src/viper/core/ui/console.py` (the Viper interactive
console): the parse / keyword-substitution / redirect / chain-split /
dispatch pipeline of `Console.start`, the `complete` tab-completion
closure, and the main read-dispatch loop.

External collaborators (built-in command handlers, module instances, the
database, the filesystem glob) are abstracted as parameters: a handler or
module run either returns normally, raises an exception, or is hit by a
keyboard interrupt.  Observable behaviour (prints, handler invocations,
buffer clears, `os.system` calls) is recorded as a trace of events.
-/

namespace Viper

/-! ### Python string primitives

The console uses `str.strip()`, `str.split()` (whitespace), `str.split(c)`
(single-character separator, keeping empty parts), `in` (substring / char
containment), `str.replace`, `str.startswith` and slicing `s[1:]`.  Each is
embedded here with Python's semantics, structurally recursive over the
character list so that concrete instances reduce by `decide`/`rfl`. -/

/-- Python `s.strip()`: remove leading and trailing whitespace. -/
def pyStrip (s : String) : String :=
  ⟨((s.data.dropWhile Char.isWhitespace).reverse.dropWhile Char.isWhitespace).reverse⟩

/-- Helper for `pySplitWs`: accumulates the current word (reversed). -/
def wsSplitAux : List Char → List Char → List String
  | acc, [] => if acc.isEmpty then [] else [⟨acc.reverse⟩]
  | acc, c :: rest =>
    if c.isWhitespace then
      if acc.isEmpty then wsSplitAux [] rest
      else ⟨acc.reverse⟩ :: wsSplitAux [] rest
    else wsSplitAux (c :: acc) rest

/-- Python `s.split()` with no argument: split on whitespace runs, no empty
parts. -/
def pySplitWs (s : String) : List String := wsSplitAux [] s.data

/-- Helper for `pySplitChar`. -/
def charSplitAux (sep : Char) : List Char → List Char → List String
  | acc, [] => [⟨acc.reverse⟩]
  | acc, c :: rest =>
    if c = sep then ⟨acc.reverse⟩ :: charSplitAux sep [] rest
    else charSplitAux sep (c :: acc) rest

/-- Python `s.split(sep)` for a one-character separator: keeps empty parts,
`"".split(sep) = [""]`. -/
def pySplitChar (sep : Char) (s : String) : List String := charSplitAux sep [] s.data

/-- Python `c in s` for a single character. -/
def pyContainsChar (c : Char) (s : String) : Bool := s.data.contains c

/-- Python `s.startswith(c)` for a one-character prefix. -/
def pyStartsWithChar (c : Char) (s : String) : Bool :=
  match s.data with
  | [] => false
  | c2 :: _ => c2 == c

/-- Python `s.startswith(t)` for a general prefix `t`. -/
def pyStartsWithS (t s : String) : Bool := List.isPrefixOf t.data s.data

/-- Python `s[1:]`: drop the first character. -/
def pyDropOne (s : String) : String := ⟨s.data.drop 1⟩

/-- Split a character list at each occurrence of the literal `$self`
(left to right, non-overlapping), as Python `s.split('$self')` would. -/
def selfSplitAux : List Char → List Char → List (List Char)
  | acc, '$' :: 's' :: 'e' :: 'l' :: 'f' :: rest => acc.reverse :: selfSplitAux [] rest
  | acc, c :: rest => selfSplitAux (c :: acc) rest
  | acc, [] => [acc.reverse]

/-- Python `'$self' in s`. -/
def pyContainsSelf (s : String) : Bool := (selfSplitAux [] s.data).length != 1

/-- Python `s.replace('$self', path)`: replace every (left-to-right,
non-overlapping) occurrence. -/
def pyReplaceSelf (path : String) (s : String) : String :=
  ⟨List.intercalate path.data (selfSplitAux [] s.data)⟩

/-! ### Data model -/

/-- The session's current artifact (`__sessions__.current.file`): the fields
the console reads. -/
structure FileInfo where
  path : String
  name : String
  sha256 : String
  deriving DecidableEq, Repr

/-- Outcome of running one external handler or module `run()`: return
normally, raise an exception, or be hit by a `KeyboardInterrupt`. -/
inductive ExecOutcome where
  | ok
  | raises
  | interrupt
  deriving DecidableEq, Repr

/-- The console's collaborators: the built-in command table's names
(`self.cmd.commands`), the loaded module names (`__modules__`), the
behaviour of each handler / module run, and the
`cfg.modules.store_output` flag. -/
structure Env where
  commands : List String
  modules : List String
  behavior : String → ExecOutcome
  storeOutput : Bool

/-- Observable events of one interaction, in order: prints, handler and
module invocations, output-buffer clears, `os.system` calls. -/
inductive Event where
  | invokedCommand (name : String) (args : List String)
  | clearedCmdOutput
  | invokedModule (name : String) (args : List String)
  | persistAttempted
  | clearedModuleOutput
  | errorReported (name : String)
  | notRecognized
  | noOpenSession
  | redirectNotice (target : String)
  | systemCall (cmd : String)
  | printedBlank
  deriving DecidableEq, Repr

/-- Mutable console state: the loop's `self.active` flag and the redirect
target `console_output` filename entry (`none` = terminal/stdout). -/
structure ConsoleState where
  active : Bool
  redirect : Option String
  deriving DecidableEq, Repr

/-! ### The console pipeline (`Console.start`, lines 138-254) -/

/-- `Console.parse` (lines 65-78): split on whitespace; first word is the
root command, the rest are the arguments.  On an empty word list the source
would raise `IndexError` at `words[0]`; the caller only invokes it on
non-empty trimmed strings, so that branch is unreachable there. -/
def parse (data : String) : String × List String :=
  match pySplitWs data with
  | [] => ("", [])
  | w :: ws => (w, ws)

/-- `Console.keywords` (lines 80-92): if `$self` occurs, replace every
occurrence with the current artifact's path when a session is open;
otherwise print "No open session" and return the `None` sentinel.  Lines
without the marker pass through unchanged. -/
def keywords (session : Option FileInfo) (data : String) : Option String × List Event :=
  if pyContainsSelf data then
    match session with
    | some s => (some (pyReplaceSelf s.path data), [])
    | none => (none, [.noOpenSession])
  else (some data, [])

/-- Redirect detection (lines 192-196): if the line contains `>`,
`data, console_output['filename'] = data.split('>')` — a two-element
unpacking, so three or more parts (two or more `>` characters) raise an
uncaught `ValueError`.  The stored target is the raw second part; only the
printed notice strips it. -/
def redirectStep (st : ConsoleState) (data : String) :
    Except String (String × ConsoleState × List Event) :=
  if pyContainsChar '>' data then
    match pySplitChar '>' data with
    | [d, f] => .ok (d, {st with redirect := some f}, [.redirectNotice (pyStrip f)])
    | _ => .error "ValueError"
  else .ok (data, st, [])

/-- One chain unit of the `for split_command in split_commands` loop
(lines 213-252): trim, skip empty, parse, handle the termination keywords,
then resolve against commands first, modules second, with the
`try/except KeyboardInterrupt/except Exception` wrapper.  A raising handler
skips its buffer clear (the `del` statement is after the call inside the
`try`); a successful module run attempts persistence when configured and a
session is open (persistence failures are swallowed by the inner
`try/except`, so they do not change the trace), then clears the module
output. -/
def dispatchUnit (env : Env) (session : Option FileInfo) (st : ConsoleState)
    (rawUnit : String) : ConsoleState × List Event :=
  if pyStrip rawUnit = "" then (st, [])
  else
    match parse (pyStrip rawUnit) with
    | (root, args) =>
      if root = "exit" ∨ root = "quit" then ({st with active := false}, [])
      else if env.commands.contains root then
        match env.behavior root with
        | .ok => (st, [.invokedCommand root args, .clearedCmdOutput])
        | .raises => (st, [.invokedCommand root args, .errorReported root])
        | .interrupt => (st, [.invokedCommand root args])
      else if env.modules.contains root then
        match env.behavior root with
        | .ok =>
          (st, [.invokedModule root args] ++
            (if env.storeOutput && session.isSome then [Event.persistAttempted] else []) ++
            [.clearedModuleOutput])
        | .raises => (st, [.invokedModule root args, .errorReported root])
        | .interrupt => (st, [.invokedModule root args])
      else (st, [.notRecognized])

/-- The whole `for split_command in split_commands` loop, threading the
console state and concatenating the event traces in order. -/
def dispatchChain (env : Env) (session : Option FileInfo) :
    ConsoleState → List String → ConsoleState × List Event
  | st, [] => (st, [])
  | st, u :: rest =>
    let p := dispatchUnit env session st u
    let q := dispatchChain env session p.1 rest
    (q.1, p.2 ++ q.2)

/-- Lines 188-254 after keyword substitution: skip empty input, detect the
redirect, handle the `!` shell escape (which `continue`s, skipping both the
chain dispatch and the final redirect reset of line 254), otherwise split
on `;`, dispatch every unit, and reset the redirect target to terminal. -/
def afterKeywords (env : Env) (session : Option FileInfo) (st : ConsoleState)
    (data : String) : Except String (ConsoleState × List Event) :=
  if data = "" then .ok (st, [])
  else
    match redirectStep st data with
    | .error e => .error e
    | .ok (d, st1, tr1) =>
      if pyStartsWithChar '!' d then .ok (st1, tr1 ++ [.systemCall (pyDropOne d)])
      else
        let q := dispatchChain env session st1 (pySplitChar ';' d)
        .ok ({q.1 with redirect := none}, tr1 ++ q.2)

/-- Processing of one (already `.strip()`ed) input line, lines 184-254:
keyword substitution first (a `None` sentinel or empty result `continue`s),
then `afterKeywords`. -/
def processLine (env : Env) (session : Option FileInfo) (st : ConsoleState)
    (rawData : String) : Except String (ConsoleState × List Event) :=
  match keywords session rawData with
  | (none, tr) => .ok (st, tr)
  | (some data, tr) =>
    match afterKeywords env session st data with
    | .ok (st2, tr2) => .ok (st2, tr ++ tr2)
    | .error e => .error e

/-- One result of the blocking `input(prompt)` call: a line, a
`KeyboardInterrupt`, or an `EOFError`. -/
inductive InputEvent where
  | line (s : String)
  | interrupt
  | eof
  deriving DecidableEq, Repr

/-- The main loop `while self.active` (lines 138-254) over a stream of
input results.  Returns the final state, the event trace, and how many
input results were consumed (read): once `self.active` is false nothing
further is read.  A `KeyboardInterrupt` at the prompt prints a blank line
and re-loops; `EOFError` stops the loop and prints a blank line; an
uncaught error from line processing propagates out of the loop. -/
def runLoop (env : Env) (session : Option FileInfo) :
    ConsoleState → List InputEvent → Except String (ConsoleState × List Event × Nat)
  | st, [] => .ok (st, [], 0)
  | st, ev :: rest =>
    if st.active = false then .ok (st, [], 0)
    else
      match ev with
      | .interrupt =>
        match runLoop env session st rest with
        | .ok (st2, tr, n) => .ok (st2, Event.printedBlank :: tr, n + 1)
        | .error e => .error e
      | .eof =>
        match runLoop env session {st with active := false} rest with
        | .ok (st2, tr, n) => .ok (st2, Event.printedBlank :: tr, n + 1)
        | .error e => .error e
      | .line s =>
        match processLine env session st (pyStrip s) with
        | .error e => .error e
        | .ok (st2, tr) =>
          match runLoop env session st2 rest with
          | .ok (st3, tr2, n) => .ok (st3, tr ++ tr2, n + 1)
          | .error e => .error e

/-! ### Tab completion (`complete`, lines 103-115) -/

/-- The `~` expansion of line 113-114: a leading `~` is replaced by the
home directory. -/
def expandTilde (home text : String) : String :=
  if pyStartsWithChar '~' text then home ++ pyDropOne text else text

/-- The `complete(text, state)` closure (lines 103-115): phase one gathers
command names then module names starting with `text` and answers
`completions[state]` while `state < len(completions)`; otherwise phase two
answers `(glob.glob(text + '*') + [None])[state]` — indexed by the raw
`state`, and raising `IndexError` when `state` is past the end of that
list.  `globFn` abstracts `glob.glob`; `home` abstracts `expanduser("~")`. -/
def complete (commandNames moduleNames : List String) (globFn : String → List String)
    (home : String) (text : String) (state : Nat) : Except String (Option String) :=
  let completions :=
    commandNames.filter (fun i => pyStartsWithS text i) ++
    moduleNames.filter (fun i => pyStartsWithS text i)
  match completions[state]? with
  | some c => .ok (some c)
  | none =>
    match ((globFn (expandTilde home text ++ "*")).map some ++ [none])[state]? with
    | some c => .ok c
    | none => .error "IndexError"

/-! ### Concrete environments used by the claim instances -/

/-- A concrete collaborator environment: commands `cmdA`, `cmdC`, `cmd`,
`open`, `ls` succeed; `badCmd` and `boom` raise; modules `modOk` (succeeds)
and `modBad` (raises); output persistence disabled. -/
def envA : Env where
  commands := ["cmdA", "badCmd", "cmdC", "cmd", "open", "ls", "boom"]
  modules := ["modOk", "modBad"]
  behavior := fun n =>
    if n = "badCmd" then .raises else if n = "boom" then .raises
    else if n = "modBad" then .raises else .ok
  storeOutput := false

/-- Propositional equality of `Except` values is decidable when it is on
both components; used to evaluate the model on concrete inputs. -/
instance {ε α : Type} [DecidableEq ε] [DecidableEq α] : DecidableEq (Except ε α)
  | .error a, .error b => decidable_of_iff (a = b) (by simp)
  | .error _, .ok _ => .isFalse (by simp)
  | .ok _, .error _ => .isFalse (by simp)
  | .ok a, .ok b => decidable_of_iff (a = b) (by simp)

/-- Claim C1: errors raised by one chain unit are caught and reported with
the command name, and the remaining chain units of the line are still
dispatched in order.  Part one: the chain loop always continues into the
rest of the units with the state left by the current unit.  Part two: a
unit whose root command raises leaves the console state unchanged and
contributes exactly the invocation followed by an error report naming the
root.  Part three: on the chain `"cmdA; badCmd; cmdC"` where only `badCmd`
raises, `cmdA` and `cmdC` each execute exactly once, in order, one error is
reported (for `badCmd`), and the loop's active flag stays set. -/
theorem c1_chain_error_isolation :
    (∀ env session st u rest,
      dispatchChain env session st (u :: rest) =
        ((dispatchChain env session (dispatchUnit env session st u).1 rest).1,
         (dispatchUnit env session st u).2 ++
           (dispatchChain env session (dispatchUnit env session st u).1 rest).2)) ∧
    (∀ env session st u root args,
      pyStrip u ≠ "" → parse (pyStrip u) = (root, args) → root ≠ "exit" → root ≠ "quit" →
      env.commands.contains root = true → env.behavior root = .raises →
      dispatchUnit env session st u = (st, [.invokedCommand root args, .errorReported root])) ∧
    processLine envA none ⟨true, none⟩ "cmdA; badCmd; cmdC" =
      .ok (⟨true, none⟩,
        [.invokedCommand "cmdA" [], .clearedCmdOutput,
         .invokedCommand "badCmd" [], .errorReported "badCmd",
         .invokedCommand "cmdC" [], .clearedCmdOutput]) := by
  refine ⟨fun env session st u rest => rfl, ?_, by decide⟩
  intro env session st u root args h1 hp h2 h3 hc hb
  simp only [dispatchUnit, h1, hp, h2, h3, hc, hb, or_self, if_false, ite_true, ite_false]

/-- Witness for C1: the erroring unit `" badCmd "` (note surrounding
whitespace) in the concrete environment `envA`. -/
theorem c1_chain_error_isolation_witness :
    dispatchUnit envA none ⟨true, none⟩ " badCmd " =
      (⟨true, none⟩, [.invokedCommand "badCmd" [], .errorReported "badCmd"]) :=
  c1_chain_error_isolation.2.1 envA none ⟨true, none⟩ " badCmd " "badCmd" []
    (by decide) (by decide) (by decide) (by decide) (by decide) (by decide)

/-- Claim C2 (code bug in the source): an input line containing two or more
`>` characters makes `data, console_output['filename'] = data.split('>')`
(line 195) raise an uncaught `ValueError` (three-way unpacking into two
targets), which aborts the main loop — contradicting the specification that
nothing but the termination keyword or end-of-input stops the shell. -/
theorem c2_double_redirect_uncaught_error :
    runLoop envA none ⟨true, none⟩ [.line "a > b > c"] = .error "ValueError" ∧
    processLine envA none ⟨true, none⟩ "a > b > c" = .error "ValueError" := by decide

/-- Counterexample to claim C3 as stated: a shell-escape line that also
contains `>` sets the redirect target and then `continue`s past the reset
of line 254, so the target is still set (to `" f"`) when the next line is
read — the reset is not unconditional. -/
theorem c3_bang_line_redirect_persists_counterexample :
    processLine envA none ⟨true, none⟩ "!x > f" =
      .ok (⟨true, some " f"⟩, [.redirectNotice "f", .systemCall "x "]) ∧
    (some " f" : Option String) ≠ none := by decide

/-- Claim C3 amended: the redirect target is reset to terminal after every
line whose processing reaches chain dispatch, i.e. whose (keyword
substituted, redirect-stripped) command part is nonempty and does not start
with `!`; a line handled by the `!` shell-escape skips the reset and leaves
its redirect target in effect.  Part one: the reset on the dispatch path;
part two: the shell-escape path returns without touching the redirect set
by this line. -/
theorem c3_redirect_reset_amended :
    (∀ env session st data d st1 tr1, data ≠ "" →
      redirectStep st data = .ok (d, st1, tr1) → pyStartsWithChar '!' d = false →
      Except.map (fun p => p.1.redirect) (afterKeywords env session st data) =
        .ok none) ∧
    (∀ env session st data d st1 tr1, data ≠ "" →
      redirectStep st data = .ok (d, st1, tr1) → pyStartsWithChar '!' d = true →
      afterKeywords env session st data =
        .ok (st1, tr1 ++ [.systemCall (pyDropOne d)])) := by
  constructor
  · intro env session st data d st1 tr1 h1 h2 h3
    simp [afterKeywords, h1, h2, h3, Except.map]
  · intro env session st data d st1 tr1 h1 h2 h3
    simp [afterKeywords, h1, h2, h3]

/-- Witness for C3 (amended): the line `"cmd > out.txt"` reaches dispatch
and ends with the redirect target reset to terminal. -/
theorem c3_redirect_reset_amended_witness :
    Except.map (fun p => p.1.redirect)
        (afterKeywords envA none ⟨true, none⟩ "cmd > out.txt") = .ok none :=
  c3_redirect_reset_amended.1 envA none ⟨true, none⟩ "cmd > out.txt" "cmd "
    ⟨true, some " out.txt"⟩ [.redirectNotice "out.txt"] (by decide) (by decide) (by decide)

/-- Counterexample to claim C4 as stated: for the raw line `"!echo a > b"`
the external command receives `"echo a "` — not the verbatim remainder
`"echo a > b"` — because redirect detection ran first and consumed the
`> b` part, also emitting the redirect notice and setting the target. -/
theorem c4_bang_line_not_verbatim_counterexample :
    processLine envA none ⟨true, none⟩ "!echo a > b" =
      .ok (⟨true, some " b"⟩, [.redirectNotice "b", .systemCall "echo a "]) ∧
    ("echo a " : String) ≠ "echo a > b" := by decide

/-- Claim C4 amended: keyword substitution and redirect detection are
applied to a `!` line before the shell-escape check; only the remainder
after `!` of the keyword-substituted, redirect-stripped command part is
passed to the system shell, and chain splitting and dispatch never happen
for such a line.  Part one: a `!` line without `$self` and without `>` is
passed through verbatim (minus the marker), producing exactly one system
call and nothing else.  Part two: a `!` line containing `>` is first split
by the redirect detector, and only the pre-`>` remainder reaches the
system shell. -/
theorem c4_shell_escape_amended :
    (∀ env session st data, data ≠ "" → pyContainsSelf data = false →
      pyContainsChar '>' data = false → pyStartsWithChar '!' data = true →
      processLine env session st data = .ok (st, [.systemCall (pyDropOne data)])) ∧
    (∀ env session st data d f, data ≠ "" → pyContainsChar '>' data = true →
      pySplitChar '>' data = [d, f] → pyStartsWithChar '!' d = true →
      afterKeywords env session st data =
        .ok ({st with redirect := some f},
          [.redirectNotice (pyStrip f), .systemCall (pyDropOne d)])) := by
  constructor
  · intro env session st data h1 h2 h3 h4
    simp only [processLine, keywords, h2, Bool.false_eq_true, if_false, ite_false,
      afterKeywords, h1, redirectStep, h3, h4, ite_true, List.nil_append]
  · intro env session st data d f h1 h2 h3 h4
    simp only [afterKeywords, h1, redirectStep, h2, h3, h4, if_false, ite_true,
      List.singleton_append, List.cons_append, List.nil_append]

/-- Witness for C4 (amended): the line `"!ls -la"` (no `>`, no `$self`)
reaches the system shell verbatim as `"ls -la"`. -/
theorem c4_shell_escape_amended_witness :
    processLine envA none ⟨true, none⟩ "!ls -la" =
      .ok (⟨true, none⟩, [.systemCall "ls -la"]) :=
  c4_shell_escape_amended.1 envA none ⟨true, none⟩ "!ls -la"
    (by decide) (by decide) (by decide) (by decide)

/-- Counterexample to claim C5 as stated: for the line `"cmd > out.txt"`
the active redirect target stored by line 195 is the raw part `" out.txt"`
(leading space kept) — the trimmed name appears only in the printed notice,
so the trimmed filename part is not what becomes the active target. -/
theorem c5_redirect_target_untrimmed_counterexample :
    redirectStep ⟨true, none⟩ "cmd > out.txt" =
      .ok ("cmd ", ⟨true, some " out.txt"⟩, [.redirectNotice "out.txt"]) ∧
    pyStrip " out.txt" ≠ " out.txt" := by decide

/-- Claim C5 amended: a line containing exactly one `>` is split at it into
a command part and a filename part; the raw (untrimmed) filename part
becomes the active redirect target while the notice names its trimmed form;
a line with no `>` keeps the terminal target; and a line splitting into
three or more parts (two or more `>`) raises an uncaught `ValueError`
instead of being split at the first occurrence. -/
theorem c5_redirect_detection_amended :
    (∀ st data d f, pyContainsChar '>' data = true → pySplitChar '>' data = [d, f] →
      redirectStep st data =
        .ok (d, {st with redirect := some f}, [.redirectNotice (pyStrip f)])) ∧
    (∀ st data, pyContainsChar '>' data = false →
      redirectStep st data = .ok (data, st, [])) ∧
    (∀ st data x y z l, pyContainsChar '>' data = true →
      pySplitChar '>' data = x :: y :: z :: l →
      redirectStep st data = .error "ValueError") := by
  refine ⟨?_, ?_, ?_⟩
  · intro st data d f h1 h2
    simp only [redirectStep, h1, h2, ite_true]
  · intro st data h1
    simp only [redirectStep, h1, Bool.false_eq_true, ite_false]
  · intro st data x y z l h1 h2
    simp only [redirectStep, h1, h2, ite_true]

/-- Witness for C5 (amended): the single-`>` line `"cmd > out.txt"`. -/
theorem c5_redirect_detection_amended_witness :
    redirectStep ⟨true, none⟩ "cmd > out.txt" =
      .ok ("cmd ", ⟨true, some " out.txt"⟩, [.redirectNotice "out.txt"]) :=
  c5_redirect_detection_amended.1 ⟨true, none⟩ "cmd > out.txt" "cmd " " out.txt"
    (by decide) (by decide)

/-- Claim C6: `$self` resolution.  Part one: with no open session, a line
containing the marker yields the "no open session" notice, the `None`
sentinel, and no dispatch at all — the console state is unchanged and the
only event is the notice.  Part two: with an open session, every occurrence
of the marker is replaced with the current artifact's filesystem path.
Part three: a line without the marker passes through the resolver
unchanged. -/
theorem c6_self_keyword_resolution :
    (∀ env st data, pyContainsSelf data = true →
      keywords none data = (none, [.noOpenSession]) ∧
      processLine env none st data = .ok (st, [.noOpenSession])) ∧
    (∀ fi data, pyContainsSelf data = true →
      keywords (some fi) data = (some (pyReplaceSelf fi.path data), [])) ∧
    (∀ session data, pyContainsSelf data = false →
      keywords session data = (some data, [])) := by
  refine ⟨?_, ?_, ?_⟩
  · intro env st data h
    constructor
    · simp [keywords, h]
    · simp [processLine, keywords, h]
  · intro fi data h
    simp [keywords, h]
  · intro session data h
    simp [keywords, h]

/-- Witness for C6: the line `"open $self"` with no open session. -/
theorem c6_self_keyword_resolution_witness :
    keywords none "open $self" = (none, [.noOpenSession]) ∧
    processLine envA none ⟨true, none⟩ "open $self" =
      .ok (⟨true, none⟩, [.noOpenSession]) :=
  c6_self_keyword_resolution.1 envA ⟨true, none⟩ "open $self" (by decide)

/-- Claim C7: termination.  Part one: a chain unit whose root is `exit` or
`quit` only clears the active flag — no handler, no module, no event — and
the chain then moves on to the next unit.  Part two: once the active flag
is false the main loop consumes no further input at all (zero reads, no
events).  Part three, concretely: after `"exit; cmdA"` the trailing unit
`cmdA` is still dispatched, and the second queued input line is never
read. -/
theorem c7_termination_keywords :
    (∀ env session st u root args,
      pyStrip u ≠ "" → parse (pyStrip u) = (root, args) →
      (root = "exit" ∨ root = "quit") →
      dispatchUnit env session st u = ({st with active := false}, [])) ∧
    (∀ env session st ins, st.active = false →
      runLoop env session st ins = .ok (st, [], 0)) ∧
    runLoop envA none ⟨true, none⟩ [.line "exit; cmdA", .line "cmdC"] =
      .ok (⟨false, none⟩, [.invokedCommand "cmdA" [], .clearedCmdOutput], 1) := by
  refine ⟨?_, ?_, by decide⟩
  · intro env session st u root args h1 hp h2
    simp only [dispatchUnit, h1, hp, h2, if_false, ite_true, ite_false]
  · intro env session st ins h
    cases ins with
    | nil => simp [runLoop]
    | cons ev rest => simp [runLoop, h]

/-- Witness for C7: the unit `"quit"` clears the flag, and the inactive
loop reads nothing from a nonempty input queue. -/
theorem c7_termination_keywords_witness :
    dispatchUnit envA none ⟨true, none⟩ "quit" = (⟨false, none⟩, []) ∧
    runLoop envA none ⟨false, none⟩ [.line "cmdA"] = .ok (⟨false, none⟩, [], 0) :=
  ⟨c7_termination_keywords.1 envA none ⟨true, none⟩ "quit" "quit" []
      (by decide) (by decide) (Or.inr rfl),
   c7_termination_keywords.2.1 envA none ⟨false, none⟩ [.line "cmdA"] rfl⟩

/-- A concrete stand-in for `glob.glob`: two filesystem matches. -/
def globStub : String → List String := fun _ => ["f1", "f2"]

/-- A concrete stand-in for `glob.glob`: a single filesystem match. -/
def globStubOne : String → List String := fun _ => ["fx"]

/-- Counterexample to claim C8 as stated: with the single command `find`
matching prefix `"f"` and glob matches `["f1", "f2"]`, state 0 returns
`find` and state 1 — the first phase-two query — returns `f2`, not the
first glob match `f1`: phase two indexes the glob list by the raw state,
skipping as many glob entries as there were name matches. -/
theorem c8_glob_candidates_skipped_counterexample :
    complete ["find"] [] globStub "/home/u" "f" 0 = .ok (some "find") ∧
    complete ["find"] [] globStub "/home/u" "f" 1 = .ok (some "f2") ∧
    ("f2" : String) ≠ "f1" := by decide

/-- Claim C8 amended: phase one serves all command names then module names
starting with the prefix, indexed by `state`; once those are exhausted,
phase two answers `(glob(expanded ++ "*") ++ [None])[state]` — indexed by
the raw state, so the first (number of phase-one matches) glob entries are
never offered, the no-more-candidates `None` sits at the raw index equal to
the number of glob matches, and an index past that raises `IndexError`.
The concrete example of the claim still holds: for prefix `"f"` with
commands `find`, `finish` and module `fileinfo`, exactly those three names
are returned at states 0, 1, 2, before any filesystem path. -/
theorem c8_completion_amended :
    (∀ cs ms g home text state c,
      (cs.filter (fun i => pyStartsWithS text i) ++
        ms.filter (fun i => pyStartsWithS text i))[state]? = some c →
      complete cs ms g home text state = .ok (some c)) ∧
    (∀ cs ms g home text state r,
      (cs.filter (fun i => pyStartsWithS text i) ++
        ms.filter (fun i => pyStartsWithS text i))[state]? = none →
      ((g (expandTilde home text ++ "*")).map some ++ [none])[state]? = some r →
      complete cs ms g home text state = .ok r) ∧
    (∀ cs ms g home text state,
      (cs.filter (fun i => pyStartsWithS text i) ++
        ms.filter (fun i => pyStartsWithS text i))[state]? = none →
      ((g (expandTilde home text ++ "*")).map some ++ [none])[state]? = none →
      complete cs ms g home text state = .error "IndexError") ∧
    (complete ["find", "finish"] ["fileinfo"] globStubOne "/home/u" "f" 0 =
        .ok (some "find") ∧
      complete ["find", "finish"] ["fileinfo"] globStubOne "/home/u" "f" 1 =
        .ok (some "finish") ∧
      complete ["find", "finish"] ["fileinfo"] globStubOne "/home/u" "f" 2 =
        .ok (some "fileinfo")) := by
  refine ⟨?_, ?_, ?_, by decide⟩
  · intro cs ms g home text state c h
    simp only [complete, h]
  · intro cs ms g home text state r h1 h2
    simp only [complete, h1, h2]
  · intro cs ms g home text state h1 h2
    simp only [complete, h1, h2]

/-- Witness for C8 (amended): a phase-one hit at state 1 and a raw-indexed
phase-two hit at state 2 in the counterexample setting. -/
theorem c8_completion_amended_witness :
    complete ["find"] [] globStub "/home/u" "f" 0 = .ok (some "find") ∧
    complete ["find"] [] globStub "/home/u" "f" 2 = .ok none :=
  ⟨c8_completion_amended.1 ["find"] [] globStub "/home/u" "f" 0 "find" (by decide),
   c8_completion_amended.2.1 ["find"] [] globStub "/home/u" "f" 2 none (by decide) (by decide)⟩

/-- Counterexample to claim C9 as stated: when the handler of `boom`
raises, control jumps from the call at line 231 straight to the `except`
block, skipping the buffer clear of line 232 — the trace holds the
invocation and the error report but no clear event. -/
theorem c9_no_clear_on_error_counterexample :
    processLine envA none ⟨true, none⟩ "boom" =
      .ok (⟨true, none⟩, [.invokedCommand "boom" [], .errorReported "boom"]) ∧
    Event.clearedCmdOutput ∉
      [Event.invokedCommand "boom" [], Event.errorReported "boom"] := by decide

/-- Claim C9 amended: the output buffer is cleared after a handler or
module run that returns normally, but the clear is skipped when the
handler or run raises (and when it is interrupted): the `del` statements
at lines 232 and 245 sit after the call inside the `try` block.  Stated for
built-in commands (part one) and modules (part two), by behaviour. -/
theorem c9_output_clear_amended :
    (∀ env session st u root args,
      pyStrip u ≠ "" → parse (pyStrip u) = (root, args) →
      root ≠ "exit" → root ≠ "quit" → env.commands.contains root = true →
      ((env.behavior root = .ok →
        dispatchUnit env session st u =
          (st, [.invokedCommand root args, .clearedCmdOutput])) ∧
       (env.behavior root = .raises →
        dispatchUnit env session st u =
          (st, [.invokedCommand root args, .errorReported root])))) ∧
    (∀ env session st u root args,
      pyStrip u ≠ "" → parse (pyStrip u) = (root, args) →
      root ≠ "exit" → root ≠ "quit" → env.commands.contains root = false →
      env.modules.contains root = true →
      ((env.behavior root = .ok →
        dispatchUnit env session st u =
          (st, [.invokedModule root args] ++
            (if env.storeOutput && session.isSome then [Event.persistAttempted] else []) ++
            [.clearedModuleOutput])) ∧
       (env.behavior root = .raises →
        dispatchUnit env session st u =
          (st, [.invokedModule root args, .errorReported root])))) := by
  constructor
  · intro env session st u root args h1 hp h2 h3 hc
    constructor
    · intro hb
      simp only [dispatchUnit, h1, hp, h2, h3, hc, hb, or_self, if_false, ite_true, ite_false]
    · intro hb
      simp only [dispatchUnit, h1, hp, h2, h3, hc, hb, or_self, if_false, ite_true, ite_false]
  · intro env session st u root args h1 hp h2 h3 hc hm
    constructor
    · intro hb
      simp only [dispatchUnit, h1, hp, h2, h3, hc, hm, hb, or_self, if_false,
        Bool.false_eq_true, ite_true, ite_false]
    · intro hb
      simp only [dispatchUnit, h1, hp, h2, h3, hc, hm, hb, or_self, if_false,
        Bool.false_eq_true, ite_true, ite_false]

/-- Witness for C9 (amended): the succeeding command `cmdA` is followed by
its buffer clear; the raising module `modBad` is not. -/
theorem c9_output_clear_amended_witness :
    dispatchUnit envA none ⟨true, none⟩ "cmdA" =
      (⟨true, none⟩, [.invokedCommand "cmdA" [], .clearedCmdOutput]) ∧
    dispatchUnit envA none ⟨true, none⟩ "modBad x" =
      (⟨true, none⟩, [.invokedModule "modBad" ["x"], .errorReported "modBad"]) :=
  ⟨(c9_output_clear_amended.1 envA none ⟨true, none⟩ "cmdA" "cmdA" []
      (by decide) (by decide) (by decide) (by decide) (by decide)).1 (by decide),
   (c9_output_clear_amended.2 envA none ⟨true, none⟩ "modBad x" "modBad" ["x"]
      (by decide) (by decide) (by decide) (by decide) (by decide) (by decide)).2 (by decide)⟩

/-- Artifact whose path contains a chain delimiter. -/
def fiSemi : FileInfo := ⟨"/tmp/x;ls", "x", "h"⟩

/-- Artifact whose path contains a redirect character. -/
def fiGt : FileInfo := ⟨"a>b", "x", "h"⟩

/-- Claim C10: keyword substitution runs on the whole raw line before
redirect detection and chain splitting.  Part one: with an open session, a
line containing `$self` is processed exactly as the fully substituted line
is.  Part two: a path containing `;` is split into separate chain units
(here `open /tmp/x` and a spurious `ls` command).  Part three: a path
containing `>` triggers redirect detection (the target becomes `b` and the
command keeps only `open a`). -/
theorem c10_keywords_before_redirect_and_chain :
    (∀ env fi st data, pyContainsSelf data = true →
      processLine env (some fi) st data =
        afterKeywords env (some fi) st (pyReplaceSelf fi.path data)) ∧
    processLine envA (some fiSemi) ⟨true, none⟩ "open $self" =
      .ok (⟨true, none⟩,
        [.invokedCommand "open" ["/tmp/x"], .clearedCmdOutput,
         .invokedCommand "ls" [], .clearedCmdOutput]) ∧
    processLine envA (some fiGt) ⟨true, none⟩ "open $self" =
      .ok (⟨true, none⟩,
        [.redirectNotice "b", .invokedCommand "open" ["a"], .clearedCmdOutput]) := by
  refine ⟨?_, by decide, by decide⟩
  intro env fi st data h
  cases h2 : afterKeywords env (some fi) st (pyReplaceSelf fi.path data) with
  | ok v =>
    cases v with
    | mk st2 tr2 => simp [processLine, keywords, h, h2]
  | error e => simp [processLine, keywords, h, h2]

/-- Witness for C10: the concrete substituted line with the `;`-bearing
path. -/
theorem c10_keywords_before_redirect_and_chain_witness :
    processLine envA (some fiSemi) ⟨true, none⟩ "open $self" =
      afterKeywords envA (some fiSemi) ⟨true, none⟩
        (pyReplaceSelf fiSemi.path "open $self") :=
  c10_keywords_before_redirect_and_chain.1 envA fiSemi ⟨true, none⟩ "open $self" (by decide)

end Viper
